import Mathlib

/-!
Verification of the zupee-memwatch snapshot analysis engine against its design
specification.  The definitions below are a shallow embedding of the TypeScript
sources: the basic analyzer and snapshot trigger come from
src/src/leak-detector.ts; the detailed per-type engine
(analysis/snapshot-analyzer) is not shipped in the repository sources, so its
parts are modelled from the specification where noted.
-/

namespace ZupeeMemwatch

/-- Summary of one heap snapshot file as assembled by
LeakDetectionController.analyzeSnapshots (src/src/leak-detector.ts lines 71-76
and 508-519).  nodeCount is always 0 in the basic analyzer. -/
structure HeapSnapshotSummary where
  totalSize : Nat
  nodeCount : Nat
  timestamp : String
  filename : String
deriving DecidableEq

/-- A per-type offender row (interface LeakOffender, src/src/leak-detector.ts
lines 81-90). -/
structure LeakOffender where
  typeName : String
  countBefore : Nat
  countAfter : Nat
  retainedSizeBefore : Nat
  retainedSizeAfter : Nat
  deltaSize : Int
  deltaCount : Int
deriving DecidableEq

/-- The summary block of SnapshotAnalysis (src/src/leak-detector.ts lines
55-59). -/
structure AnalysisSummary where
  totalGrowthMB : ℚ
  suspiciousGrowth : Bool
  likelyLeakSource : Option String
deriving DecidableEq

/-- The metadata block of SnapshotAnalysis (src/src/leak-detector.ts lines
60-65). -/
structure AnalysisMetadata where
  containerId : String
  image : String
  delayMinutes : ℚ
  timestamp : String
deriving DecidableEq

/-- The top-level analysis result (interface SnapshotAnalysis,
src/src/leak-detector.ts lines 51-66). -/
structure SnapshotAnalysis where
  before : HeapSnapshotSummary
  after : HeapSnapshotSummary
  offenders : List LeakOffender
  summary : AnalysisSummary
  metadata : AnalysisMetadata
deriving DecidableEq

/-- The configuration fields of LeakDetectorConfig that the analysis step
reads; analysisThreshold is optional and is defaulted in the controller
constructor (src/src/leak-detector.ts lines 195-207). -/
structure LeakDetectorConfig where
  containerId : String
  delay : ℚ
  analysisThreshold : Option ℚ
deriving DecidableEq

/-- Default analysisThreshold from the controller constructor
(src/src/leak-detector.ts line 201): 10 * 1024 * 1024 bytes, i.e. 10 MiB. -/
def defaultAnalysisThreshold : ℚ := 10 * 1024 * 1024

/-- Threshold actually used by a controller built from a given configuration:
the caller-supplied value, or the 10 MiB default when none was supplied. -/
def resolvedThreshold (cfg : LeakDetectorConfig) : ℚ :=
  cfg.analysisThreshold.getD defaultAnalysisThreshold

/-- File metadata as read by fs.statSync in analyzeSnapshots: size in bytes
and modification time (rendered as an ISO string). -/
structure FileStat where
  size : Nat
  mtimeIso : String
deriving DecidableEq

/-- LeakDetectionController.analyzeSnapshots (src/src/leak-detector.ts lines
493-535).  growthMB is the byte difference of the two file sizes divided by
1024 * 1024; the verdict compares the absolute value of growthMB against the
threshold converted to the same unit; offenders are always empty and
likelyLeakSource is a fixed placeholder string exactly when the verdict is
suspicious.  All divisions are by a power of two, which float64 performs
exactly on file sizes, so rational arithmetic models the source faithfully. -/
def analyzeSnapshots (cfg : LeakDetectorConfig) (image : String)
    (beforeStat afterStat : FileStat) (beforeName afterName now : String) :
    SnapshotAnalysis :=
  let growthMB : ℚ := ((afterStat.size : ℚ) - (beforeStat.size : ℚ)) / (1024 * 1024)
  let suspiciousGrowth : Bool := decide (|growthMB| > resolvedThreshold cfg / (1024 * 1024))
  { before :=
      { totalSize := beforeStat.size
        nodeCount := 0
        timestamp := beforeStat.mtimeIso
        filename := beforeName }
    after :=
      { totalSize := afterStat.size
        nodeCount := 0
        timestamp := afterStat.mtimeIso
        filename := afterName }
    offenders := []
    summary :=
      { totalGrowthMB := growthMB
        suspiciousGrowth := suspiciousGrowth
        likelyLeakSource :=
          if suspiciousGrowth then some "Unknown - detailed analysis required" else none }
    metadata :=
      { containerId := cfg.containerId
        image := image
        delayMinutes := cfg.delay
        timestamp := now } }

/-- The size fs.statSync reports for a file modelled as its byte sequence. -/
def statSize (contents : List Nat) : Nat := contents.length

/-- analyzeSnapshots applied to two on-disk files given by their byte
contents: the stat size of each file is its length. -/
def analyzeSnapshotFiles (cfg : LeakDetectorConfig) (image : String)
    (beforeFile afterFile : List Nat) (beforeM afterM beforeName afterName now : String) :
    SnapshotAnalysis :=
  analyzeSnapshots cfg image ⟨statSize beforeFile, beforeM⟩ ⟨statSize afterFile, afterM⟩
    beforeName afterName now

theorem suspiciousGrowth_eq_decide (cfg : LeakDetectorConfig) (image : String)
    (beforeStat afterStat : FileStat) (beforeName afterName now : String) :
    (analyzeSnapshots cfg image beforeStat afterStat beforeName afterName now).summary.suspiciousGrowth
      = decide (|(afterStat.size : ℚ) - (beforeStat.size : ℚ)| > resolvedThreshold cfg) := by
  simp only [analyzeSnapshots]
  rw [decide_eq_decide]
  have hc : (0 : ℚ) < 1024 * 1024 := by norm_num
  rw [abs_div, abs_of_pos hc]
  exact div_lt_div_iff_of_pos_right hc

/-- Outcome of the awaited steps inside the try block of takeSnapshot:
whether the before hook, the snapshot stream write, and the after hook each
complete without throwing. -/
structure SnapshotRunOutcome where
  beforeHookOk : Bool
  writeOk : Bool
  afterHookOk : Bool
deriving DecidableEq

/-- The mutable state of InContainerSnapshotTrigger: its maintenanceMode
flag (src/src/leak-detector.ts line 96). -/
structure TriggerState where
  maintenanceMode : Bool
deriving DecidableEq

/-- Control flow of the try block of takeSnapshot: the first failing awaited
step raises, later steps do not run. -/
def takeSnapshotBody (run : SnapshotRunOutcome) : Except Unit Unit :=
  if run.beforeHookOk then
    if run.writeOk then
      if run.afterHookOk then .ok () else .error ()
    else .error ()
  else .error ()

def enterMaintenance (_ : TriggerState) : TriggerState := ⟨true⟩

def exitMaintenance (_ : TriggerState) : TriggerState := ⟨false⟩

/-- InContainerSnapshotTrigger.takeSnapshot (src/src/leak-detector.ts lines
115-161): enters maintenance mode, runs the body; on success clears the flag
and returns true; the catch-all handler clears the flag and returns false, so
the call as a whole never raises. -/
def takeSnapshot (run : SnapshotRunOutcome) (s : TriggerState) : Bool × TriggerState :=
  let entered := enterMaintenance s
  match takeSnapshotBody run with
  | .ok _ => (true, exitMaintenance entered)
  | .error _ => (false, exitMaintenance entered)

/-- InContainerSnapshotTrigger.isInMaintenanceMode (src/src/leak-detector.ts
lines 166-168). -/
def isInMaintenanceMode (s : TriggerState) : Bool := s.maintenanceMode

theorem likelyLeakSource_eq_ite (cfg : LeakDetectorConfig) (image : String)
    (beforeStat afterStat : FileStat) (beforeName afterName now : String) :
    (analyzeSnapshots cfg image beforeStat afterStat beforeName afterName now).summary.likelyLeakSource
      = (if (analyzeSnapshots cfg image beforeStat afterStat beforeName afterName now).summary.suspiciousGrowth
          then some "Unknown - detailed analysis required" else none) := rfl

/-- C1 counterexample: with the default 10 MiB threshold, shrinking from
20 MiB to 0 bytes sets suspiciousGrowth to true even though
after.totalSize minus before.totalSize is not greater than the threshold, so
a negative growth can set the flag, contrary to the claim. -/
theorem c1_abs_counterexample :
    (analyzeSnapshots ⟨"container-1", 5, none⟩ "img" ⟨20971520, "t0"⟩ ⟨0, "t1"⟩
        "before.heapsnapshot" "after.heapsnapshot" "t2").summary.suspiciousGrowth = true
    ∧ ¬ (((0 : ℚ) - (20971520 : ℚ)) > resolvedThreshold ⟨"container-1", 5, none⟩) := by
  constructor
  · rw [suspiciousGrowth_eq_decide, decide_eq_true_eq]
    norm_num [resolvedThreshold, defaultAnalysisThreshold]
  · norm_num [resolvedThreshold, defaultAnalysisThreshold]

/-- C1 (amended): the suspicious-growth flag is true if and only if the
absolute value of (after-summary.totalSize minus before-summary.totalSize)
is strictly greater than the configured threshold in bytes (default 10 MiB
when not supplied); in particular a decrease larger than the threshold also
sets the flag. -/
theorem c1_suspiciousGrowth_iff_abs_gt_threshold (cfg : LeakDetectorConfig)
    (image : String) (beforeStat afterStat : FileStat) (beforeName afterName now : String) :
    (analyzeSnapshots cfg image beforeStat afterStat beforeName afterName now).summary.suspiciousGrowth = true
      ↔ |(afterStat.size : ℚ) - (beforeStat.size : ℚ)| > resolvedThreshold cfg := by
  rw [suspiciousGrowth_eq_decide]
  exact decide_eq_true_iff

/-- C2: in every analysis result, summary.totalGrowthMB equals
after.totalSize minus before.totalSize converted from bytes to megabytes by
dividing by 1024 * 1024, exactly. -/
theorem c2_totalGrowthMB_exact (cfg : LeakDetectorConfig) (image : String)
    (beforeStat afterStat : FileStat) (beforeName afterName now : String) :
    (analyzeSnapshots cfg image beforeStat afterStat beforeName afterName now).summary.totalGrowthMB
      = (((analyzeSnapshots cfg image beforeStat afterStat beforeName afterName now).after.totalSize : ℚ)
          - ((analyzeSnapshots cfg image beforeStat afterStat beforeName afterName now).before.totalSize : ℚ))
        / (1024 * 1024) := rfl

/-- C3 counterexample: an analysis with suspicious growth (20 MiB growth,
default threshold) has an empty offender list and nevertheless reports a
likely leak source, so likelyLeakSource is not none when the offender list is
empty, contrary to the claim. -/
theorem c3_leakSource_counterexample :
    (analyzeSnapshots ⟨"container-1", 5, none⟩ "img" ⟨0, "t0"⟩ ⟨20971520, "t1"⟩
        "before.heapsnapshot" "after.heapsnapshot" "t2").offenders = []
    ∧ (analyzeSnapshots ⟨"container-1", 5, none⟩ "img" ⟨0, "t0"⟩ ⟨20971520, "t1"⟩
        "before.heapsnapshot" "after.heapsnapshot" "t2").summary.likelyLeakSource
      = some "Unknown - detailed analysis required" := by
  have hsusp : (analyzeSnapshots ⟨"container-1", 5, none⟩ "img" ⟨0, "t0"⟩ ⟨20971520, "t1"⟩
      "before.heapsnapshot" "after.heapsnapshot" "t2").summary.suspiciousGrowth = true := by
    rw [suspiciousGrowth_eq_decide, decide_eq_true_eq]
    norm_num [resolvedThreshold, defaultAnalysisThreshold]
  exact ⟨rfl, by rw [likelyLeakSource_eq_ite, hsusp]; rfl⟩

/-- C3 (amended): the basic analyzer always returns an empty offender list;
likelyLeakSource is the fixed placeholder string exactly when
suspicious-growth is true and is absent otherwise — it is never derived from
a ranked offender. -/
theorem c3_likelyLeakSource_placeholder (cfg : LeakDetectorConfig) (image : String)
    (beforeStat afterStat : FileStat) (beforeName afterName now : String) :
    (analyzeSnapshots cfg image beforeStat afterStat beforeName afterName now).offenders = []
    ∧ (analyzeSnapshots cfg image beforeStat afterStat beforeName afterName now).summary.likelyLeakSource
      = (if (analyzeSnapshots cfg image beforeStat afterStat beforeName afterName now).summary.suspiciousGrowth
          then some "Unknown - detailed analysis required" else none) :=
  ⟨rfl, rfl⟩

/-- C4: for byte-identical input snapshot files (and a nonnegative configured
threshold), the result has totalGrowthMB = 0, suspiciousGrowth = false and an
empty offender list. -/
theorem c4_identical_files_no_growth (cfg : LeakDetectorConfig) (image : String)
    (beforeFile afterFile : List Nat) (beforeM afterM beforeName afterName now : String)
    (hsame : beforeFile = afterFile) (ht : 0 ≤ resolvedThreshold cfg) :
    (analyzeSnapshotFiles cfg image beforeFile afterFile beforeM afterM beforeName afterName now).summary.totalGrowthMB = 0
    ∧ (analyzeSnapshotFiles cfg image beforeFile afterFile beforeM afterM beforeName afterName now).summary.suspiciousGrowth = false
    ∧ (analyzeSnapshotFiles cfg image beforeFile afterFile beforeM afterM beforeName afterName now).offenders = [] := by
  subst hsame
  refine ⟨?_, ?_, rfl⟩
  · simp [analyzeSnapshotFiles, analyzeSnapshots]
  · unfold analyzeSnapshotFiles
    rw [suspiciousGrowth_eq_decide]
    simp only [sub_self, abs_zero, decide_eq_false_iff_not, not_lt]
    exact ht

/-- C4 witness: a concrete identical pair of files with threshold 1024. -/
theorem c4_identical_files_no_growth_witness :
    (analyzeSnapshotFiles ⟨"c", 5, some 1024⟩ "img" [1, 2, 3] [1, 2, 3] "m0" "m1"
        "b" "a" "t").summary.totalGrowthMB = 0
    ∧ (analyzeSnapshotFiles ⟨"c", 5, some 1024⟩ "img" [1, 2, 3] [1, 2, 3] "m0" "m1"
        "b" "a" "t").summary.suspiciousGrowth = false
    ∧ (analyzeSnapshotFiles ⟨"c", 5, some 1024⟩ "img" [1, 2, 3] [1, 2, 3] "m0" "m1"
        "b" "a" "t").offenders = [] :=
  c4_identical_files_no_growth ⟨"c", 5, some 1024⟩ "img" [1, 2, 3] [1, 2, 3] "m0" "m1"
    "b" "a" "t" rfl (by norm_num [resolvedThreshold, Option.getD_some])

/-- C8: for a fixed pair of snapshots, if the analysis with the smaller
resolved threshold reports suspiciousGrowth = false then so does the analysis
with the larger resolved threshold. -/
theorem c8_threshold_monotone (cfg1 cfg2 : LeakDetectorConfig) (image : String)
    (beforeStat afterStat : FileStat) (beforeName afterName now : String)
    (h12 : resolvedThreshold cfg1 ≤ resolvedThreshold cfg2)
    (h1 : (analyzeSnapshots cfg1 image beforeStat afterStat beforeName afterName now).summary.suspiciousGrowth = false) :
    (analyzeSnapshots cfg2 image beforeStat afterStat beforeName afterName now).summary.suspiciousGrowth = false := by
  rw [suspiciousGrowth_eq_decide] at h1 ⊢
  rw [decide_eq_false_iff_not] at h1 ⊢
  intro hlt
  exact h1 (lt_of_le_of_lt h12 hlt)

/-- C8 witness: equal-size snapshots, thresholds 0 and 1048576. -/
theorem c8_threshold_monotone_witness :
    (analyzeSnapshots ⟨"c", 5, some 1048576⟩ "img" ⟨100, "m0"⟩ ⟨100, "m1"⟩
        "b" "a" "t").summary.suspiciousGrowth = false :=
  c8_threshold_monotone ⟨"c", 5, some 0⟩ ⟨"c", 5, some 1048576⟩ "img" ⟨100, "m0"⟩
    ⟨100, "m1"⟩ "b" "a" "t" (by norm_num [resolvedThreshold, Option.getD_some])
    (by rw [suspiciousGrowth_eq_decide, decide_eq_false_iff_not]
        norm_num [resolvedThreshold, Option.getD_some])

/-- Modelled from the spec: the error taxonomy of the detailed analysis
engine (section 7); the engine itself (analysis/snapshot-analyzer) is not
among the repository sources, only its callers and re-exports are. -/
inductive AnalysisError
  | invalidFormat
  | missingSection
  | corruptData
  | inconsistentAnalysis
deriving DecidableEq

/-- Modelled from the spec: the parsed tables of a heap-snapshot file
(section 3, HeapSnapshotFile), as returned by the Snapshot Loader. -/
structure ParsedSnapshot where
  nodeFields : List String
  nodeData : List Nat
  edgeFields : List String
  edgeData : List Nat
  strings : List String
deriving DecidableEq

/-- Modelled from the spec: the raw on-disk artifact before validation; each
required section may be absent, and a file that is not well-formed structured
data at all is represented as none. -/
structure RawSnapshotFile where
  nodeFields : Option (List String)
  nodeData : Option (List Nat)
  edgeFields : Option (List String)
  edgeData : Option (List Nat)
  strings : Option (List String)
deriving DecidableEq

/-- Modelled from the spec: the Snapshot Loader (section 4.1).  Fails with
invalidFormat when the file is not well-formed, missingSection when a
required table is absent, corruptData when an array-length divisibility
invariant is violated; on success returns the parsed tables unchanged. -/
def loadSnapshot (file : Option RawSnapshotFile) : Except AnalysisError ParsedSnapshot :=
  match file with
  | none => .error .invalidFormat
  | some f =>
    match f.nodeFields, f.nodeData, f.edgeFields, f.edgeData, f.strings with
    | some nf, some nd, some ef, some ed, some ss =>
      if nd.length % nf.length ≠ 0 then .error .corruptData
      else if ed.length % ef.length ≠ 0 then .error .corruptData
      else .ok ⟨nf, nd, ef, ed, ss⟩
    | _, _, _, _, _ => .error .missingSection

/-- Modelled from the spec: resolve a node's type name through the string
table, falling back to the generic "object" bucket when the name is empty or
unresolved (section 4.2). -/
def resolveTypeName (strings : List String) (idx : Nat) : String :=
  let s := strings.getD idx ""
  if s = "" then "object" else s

/-- Modelled from the spec: iterate the flat node-data array in strides of
the node field count, extracting each node's resolved type name and self-size
field (section 4.2). -/
def nodeRecords (fieldCount nameIdx sizeIdx : Nat) (strings : List String)
    (data : List Nat) : List (String × Nat) :=
  if fieldCount = 0 then []
  else
    (List.range (data.length / fieldCount)).map (fun i =>
      (resolveTypeName strings (data.getD (i * fieldCount + nameIdx) 0),
        data.getD (i * fieldCount + sizeIdx) 0))

/-- Modelled from the spec: one row per distinct type name in a single
snapshot (section 3, TypeAggregate). -/
structure TypeAggregate where
  typeName : String
  count : Nat
  retainedSize : Nat
deriving DecidableEq

/-- Modelled from the spec: accumulate count += 1 and retained-size +=
self-size into the bucket keyed by the type name, creating the bucket at the
end on first occurrence (insertion order of first occurrence). -/
def bumpAggregate (rows : List TypeAggregate) (name : String) (size : Nat) :
    List TypeAggregate :=
  match rows with
  | [] => [⟨name, 1, size⟩]
  | row :: rest =>
    if row.typeName = name then
      ⟨row.typeName, row.count + 1, row.retainedSize + size⟩ :: rest
    else
      row :: bumpAggregate rest name size

/-- Modelled from the spec: the Type Aggregator's single pass over the node
records (section 4.2). -/
def aggregateRecords (recs : List (String × Nat)) : List TypeAggregate :=
  recs.foldl (fun rows r => bumpAggregate rows r.1 r.2) []

/-- The node records of a parsed snapshot, using the positions of the "name"
and "self_size" fields in the node field layout. -/
def snapshotNodes (s : ParsedSnapshot) : List (String × Nat) :=
  nodeRecords s.nodeFields.length (s.nodeFields.indexOf "name")
    (s.nodeFields.indexOf "self_size") s.strings s.nodeData

/-- The TypeAggregate table of one parsed snapshot. -/
def aggregateSnapshot (s : ParsedSnapshot) : List TypeAggregate :=
  aggregateRecords (snapshotNodes s)

/-- Sum of the retained sizes over an aggregate table. -/
def sumRetained : List TypeAggregate → Nat
  | [] => 0
  | row :: rest => row.retainedSize + sumRetained rest

/-- Sum of the self-size fields over a list of node records. -/
def sumSelfSizes : List (String × Nat) → Nat
  | [] => 0
  | r :: rest => r.2 + sumSelfSizes rest

theorem sumRetained_bumpAggregate (rows : List TypeAggregate) (name : String) (size : Nat) :
    sumRetained (bumpAggregate rows name size) = sumRetained rows + size := by
  induction rows with
  | nil => simp [bumpAggregate, sumRetained]
  | cons row rest ih =>
    by_cases hname : row.typeName = name
    · simp only [bumpAggregate, if_pos hname, sumRetained]
      omega
    · simp only [bumpAggregate, if_neg hname, sumRetained, ih]
      omega

theorem sumRetained_foldl_bump (recs : List (String × Nat)) (acc : List TypeAggregate) :
    sumRetained (recs.foldl (fun rows r => bumpAggregate rows r.1 r.2) acc)
      = sumRetained acc + sumSelfSizes recs := by
  induction recs generalizing acc with
  | nil => simp [sumSelfSizes]
  | cons r rest ih =>
    simp only [List.foldl_cons, sumSelfSizes, ih, sumRetained_bumpAggregate]
    omega

/-- Modelled from the spec: the severity enumeration (section 3). -/
inductive Severity
  | low
  | medium
  | high
  | critical
deriving DecidableEq

/-- Numeric rank of a severity level, for comparing classifications. -/
def Severity.toNat : Severity → Nat
  | .low => 0
  | .medium => 1
  | .high => 2
  | .critical => 3

/-- The higher of two severity levels. -/
def Severity.maxSev (a b : Severity) : Severity :=
  if a.toNat ≤ b.toNat then b else a

/-- Modelled from the spec: the combined severity table of section 4.4, read
row by row — a row triggers when its delta-size bound or its growth-rate
bound is exceeded. -/
def classifySeverity (deltaMB growthRate : ℚ) : Severity :=
  if deltaMB > 100 ∨ growthRate > 10 then .critical
  else if deltaMB > 50 ∨ growthRate > 5 then .high
  else if deltaMB > 10 ∨ growthRate > 2 then .medium
  else .low

/-- Modelled from the spec: the size-based classification alone (left column
of the section 4.4 table). -/
def sizeSeverity (deltaMB : ℚ) : Severity :=
  if deltaMB > 100 then .critical
  else if deltaMB > 50 then .high
  else if deltaMB > 10 then .medium
  else .low

/-- Modelled from the spec: the rate-based classification alone (middle
column of the section 4.4 table). -/
def rateSeverity (growthRate : ℚ) : Severity :=
  if growthRate > 10 then .critical
  else if growthRate > 5 then .high
  else if growthRate > 2 then .medium
  else .low

/-- Modelled from the spec: growth-rate of one type between snapshots
(section 4.3): delta-size over before-size when before-size is positive, an
infinite-growth sentinel when the type only appears after, and 0 when it is
absent from both. -/
inductive GrowthRate
  | finite (rate : ℚ)
  | infiniteGrowth
deriving DecidableEq

def growthRateOf (beforeSize afterSize : Nat) : GrowthRate :=
  if 0 < beforeSize then
    .finite (((afterSize : ℚ) - (beforeSize : ℚ)) / (beforeSize : ℚ))
  else if 0 < afterSize then .infiniteGrowth
  else .finite 0

/-- Modelled from the spec: the infinite sentinel is classified by
delta-size-in-MB alone (section 8, scenario 3). -/
def offenderSeverity (deltaMB : ℚ) : GrowthRate → Severity
  | .finite r => classifySeverity deltaMB r
  | .infiniteGrowth => sizeSeverity deltaMB

/-- Modelled from the spec: one row per type name present in either snapshot
(section 3, TypeDelta). -/
structure TypeDelta where
  typeName : String
  countBefore : Nat
  countAfter : Nat
  retainedSizeBefore : Nat
  retainedSizeAfter : Nat
  deltaSize : Int
  deltaCount : Int
  growthRate : GrowthRate
  severity : Severity
deriving DecidableEq

/-- Count and retained size of a type in an aggregate table, zero for a type
absent from the table (section 4.3). -/
def lookupAggregate (rows : List TypeAggregate) (name : String) : Nat × Nat :=
  match rows.find? (fun r => r.typeName == name) with
  | some r => (r.count, r.retainedSize)
  | none => (0, 0)

/-- Modelled from the spec: union of the type names of both aggregate
tables, in first-table-then-new-names order. -/
def unionTypeNames (beforeRows afterRows : List TypeAggregate) : List String :=
  let beforeNames := beforeRows.map TypeAggregate.typeName
  beforeNames ++
    ((afterRows.map TypeAggregate.typeName).filter (fun n => ! beforeNames.contains n))

/-- Modelled from the spec: the Differ's per-type delta row (section 4.3). -/
def mkTypeDelta (beforeRows afterRows : List TypeAggregate) (n : String) : TypeDelta :=
  let b := lookupAggregate beforeRows n
  let a := lookupAggregate afterRows n
  let dsize : Int := (a.2 : Int) - (b.2 : Int)
  let rate := growthRateOf b.2 a.2
  { typeName := n
    countBefore := b.1
    countAfter := a.1
    retainedSizeBefore := b.2
    retainedSizeAfter := a.2
    deltaSize := dsize
    deltaCount := (a.1 : Int) - (b.1 : Int)
    growthRate := rate
    severity := offenderSeverity ((dsize : ℚ) / (1024 * 1024)) rate }

def diffAggregates (beforeRows afterRows : List TypeAggregate) : List TypeDelta :=
  (unionTypeNames beforeRows afterRows).map (mkTypeDelta beforeRows afterRows)

/-- Modelled from the spec: the offender ordering — delta-size descending,
ties broken by type name ascending (section 4.4). -/
def rankedBefore (a b : TypeDelta) : Bool :=
  (decide (b.deltaSize < a.deltaSize)) ||
    ((a.deltaSize == b.deltaSize) && decide (a.typeName ≤ b.typeName))

def insertRanked (d : TypeDelta) : List TypeDelta → List TypeDelta
  | [] => [d]
  | e :: rest => if rankedBefore d e then d :: e :: rest else e :: insertRanked d rest

/-- Modelled from the spec: only types with positive delta-size become
offenders; they are sorted by the offender ordering. -/
def rankOffenders (deltas : List TypeDelta) : List TypeDelta :=
  (deltas.filter (fun d => decide (0 < d.deltaSize))).foldr insertRanked []

/-- Per-snapshot summary of the detailed result: total size from the
aggregation pass and node count. -/
structure DetailedSnapshotSummary where
  totalSize : Nat
  nodeCount : Nat
deriving DecidableEq

def snapshotTotalSize (s : ParsedSnapshot) : Nat := sumSelfSizes (snapshotNodes s)

def snapshotNodeCount (s : ParsedSnapshot) : Nat := (snapshotNodes s).length

/-- Modelled from the spec: the summary block of the detailed AnalysisResult
(section 3), including the confidence score. -/
structure DetailedSummary where
  totalGrowthMB : ℚ
  suspiciousGrowth : Bool
  likelyLeakSource : Option String
  confidence : ℚ
  recommendations : List String
deriving DecidableEq

/-- Modelled from the spec: the detailed AnalysisResult (section 3). -/
structure DetailedAnalysisResult where
  before : DetailedSnapshotSummary
  after : DetailedSnapshotSummary
  deltas : List TypeDelta
  offenders : List TypeDelta
  summary : DetailedSummary
deriving DecidableEq

/-- Modelled from the spec: fixed template recommendations selected by
offender type patterns (section 4.4, advisory only). -/
def recommendationsFor (d : TypeDelta) : List String :=
  if d.typeName = "Array" then ["Check for unbounded array growth"] else []

/-- Share of the total growth carried by the top-ranked offender, used as
the concentration input of the confidence heuristic. -/
def topTypeShare (offenders : List TypeDelta) (growthBytes : ℚ) : ℚ :=
  match offenders.head? with
  | some o => if growthBytes ≤ 0 then 0 else (o.deltaSize : ℚ) / growthBytes
  | none => 0

/-- Modelled from the spec: the confidence heuristic (section 4.4) — zero
when the verdict is not suspicious, otherwise the concentration of growth in
the top type scaled by how far growth exceeds the threshold, clamped to
stay inside the unit interval. -/
def confidenceScore (suspicious : Bool) (growthBytes threshold share : ℚ) : ℚ :=
  if suspicious then min 1 (max 0 (share * (growthBytes / (growthBytes + threshold))))
  else 0

/-- Modelled from the spec: the Report Assembler (section 4.5) composed with
the Differ and the Classifier and Ranker, producing the detailed result from
the two parsed snapshots. -/
def assembleResult (threshold : ℚ) (beforeSnap afterSnap : ParsedSnapshot) :
    DetailedAnalysisResult :=
  let bAgg := aggregateSnapshot beforeSnap
  let aAgg := aggregateSnapshot afterSnap
  let deltas := diffAggregates bAgg aAgg
  let offenders := rankOffenders deltas
  let growthBytes : ℚ := (snapshotTotalSize afterSnap : ℚ) - (snapshotTotalSize beforeSnap : ℚ)
  let suspicious : Bool := decide (growthBytes > threshold)
  { before := ⟨snapshotTotalSize beforeSnap, snapshotNodeCount beforeSnap⟩
    after := ⟨snapshotTotalSize afterSnap, snapshotNodeCount afterSnap⟩
    deltas := deltas
    offenders := offenders
    summary :=
      { totalGrowthMB := growthBytes / (1024 * 1024)
        suspiciousGrowth := suspicious
        likelyLeakSource := offenders.head?.map TypeDelta.typeName
        confidence := confidenceScore suspicious growthBytes threshold
          (topTypeShare offenders growthBytes)
        recommendations := offenders.foldr (fun d acc => recommendationsFor d ++ acc) [] } }

/-- Modelled from the spec: one complete analysis call of the detailed
engine: load both files, aggregate, diff, classify and assemble; any loader
error is fatal to the whole call, so the caller receives either a complete
result or a structured error, never a partial result. -/
def detailedAnalyze (threshold : ℚ) (beforeFile afterFile : Option RawSnapshotFile) :
    Except AnalysisError DetailedAnalysisResult := do
  let b ← loadSnapshot beforeFile
  let a ← loadSnapshot afterFile
  pure (assembleResult threshold b a)

/-- C10: takeSnapshot never raises (the catch-all handler turns every failing
step into a false return), and after every completed call, successful or not,
the maintenance-mode flag is false. -/
theorem c10_takeSnapshot_clears_maintenance (run : SnapshotRunOutcome) (s : TriggerState) :
    isInMaintenanceMode (takeSnapshot run s).2 = false := by
  unfold takeSnapshot
  cases takeSnapshotBody run <;> rfl

/-- C5: when the flat node-data array length of an input file is not a
multiple of the node field count, the analysis call fails with corruptData;
the Except-valued call produces no result object at all, so no partial
AnalysisResult exists. -/
theorem c5_corrupt_node_data_fails (threshold : ℚ) (f : RawSnapshotFile)
    (other : Option RawSnapshotFile) (nf : List String) (nd : List Nat)
    (ef : List String) (ed : List Nat) (ss : List String)
    (hnf : f.nodeFields = some nf) (hnd : f.nodeData = some nd)
    (hef : f.edgeFields = some ef) (hed : f.edgeData = some ed)
    (hss : f.strings = some ss)
    (hbad : nd.length % nf.length ≠ 0) :
    detailedAnalyze threshold (some f) other = .error .corruptData := by
  simp [detailedAnalyze, loadSnapshot, hnf, hnd, hef, hed, hss, hbad,
    Bind.bind, Except.bind]

/-- C5 witness: a five-field node layout with a three-entry node array. -/
theorem c5_corrupt_node_data_fails_witness :
    detailedAnalyze 1048576
      (some ⟨some ["type", "name", "id", "self_size", "edge_count"], some [0, 1, 2],
        some ["type", "name", "to_node"], some [], some ["Array"]⟩) none
      = .error .corruptData :=
  c5_corrupt_node_data_fails 1048576
    ⟨some ["type", "name", "id", "self_size", "edge_count"], some [0, 1, 2],
      some ["type", "name", "to_node"], some [], some ["Array"]⟩ none
    ["type", "name", "id", "self_size", "edge_count"] [0, 1, 2]
    ["type", "name", "to_node"] [] ["Array"]
    rfl rfl rfl rfl rfl (by decide)

/-- C6: the combined severity table equals the maximum of the size-based and
the rate-based classification, so severity is a deterministic function of
delta-size-in-MB and growth-rate. -/
theorem c6_severity_is_max_of_classifications (deltaMB growthRate : ℚ) :
    classifySeverity deltaMB growthRate
      = Severity.maxSev (sizeSeverity deltaMB) (rateSeverity growthRate) := by
  by_cases h1 : deltaMB > 100 <;> by_cases h2 : deltaMB > 50 <;>
    by_cases h3 : deltaMB > 10 <;> by_cases h4 : growthRate > 10 <;>
    by_cases h5 : growthRate > 5 <;> by_cases h6 : growthRate > 2 <;>
    simp [classifySeverity, sizeSeverity, rateSeverity, Severity.maxSev,
      Severity.toNat, h1, h2, h3, h4, h5, h6]

theorem confidenceScore_nonneg_le_one (s : Bool) (g t sh : ℚ) :
    0 ≤ confidenceScore s g t sh ∧ confidenceScore s g t sh ≤ 1 := by
  cases s
  · simp [confidenceScore]
  · constructor
    · show (0 : ℚ) ≤ min 1 (max 0 (sh * (g / (g + t))))
      exact le_min (by norm_num) (le_max_left 0 _)
    · show min 1 (max 0 (sh * (g / (g + t)))) ≤ 1
      exact min_le_left 1 _

/-- C7: every result of a successful detailed analysis call carries a
confidence score in the unit interval, and the score is 0 whenever
suspiciousGrowth is false. -/
theorem c7_confidence_in_unit_interval (threshold : ℚ)
    (beforeFile afterFile : Option RawSnapshotFile) (r : DetailedAnalysisResult)
    (h : detailedAnalyze threshold beforeFile afterFile = .ok r) :
    (0 ≤ r.summary.confidence ∧ r.summary.confidence ≤ 1)
    ∧ (r.summary.suspiciousGrowth = false → r.summary.confidence = 0) := by
  obtain ⟨b, a, hba⟩ : ∃ b a, r = assembleResult threshold b a := by
    unfold detailedAnalyze at h
    cases hb : loadSnapshot beforeFile with
    | error e => rw [hb] at h; simp [Bind.bind, Except.bind] at h
    | ok b =>
      cases ha : loadSnapshot afterFile with
      | error e => rw [hb, ha] at h; simp [Bind.bind, Except.bind] at h
      | ok a =>
        rw [hb, ha] at h
        simp only [Bind.bind, Except.bind, pure, Except.pure, Except.ok.injEq] at h
        exact ⟨b, a, h.symm⟩
  subst hba
  constructor
  · exact confidenceScore_nonneg_le_one _ _ _ _
  · intro hfalse
    simp only [assembleResult] at hfalse ⊢
    rw [hfalse]
    rfl

/-- C7 witness: a concrete well-formed pair of snapshot files. -/
theorem c7_confidence_in_unit_interval_witness :
    (0 ≤ (assembleResult 1048576
          ⟨["type", "name", "id", "self_size", "edge_count"], [],
            ["type", "name", "to_node"], [], []⟩
          ⟨["type", "name", "id", "self_size", "edge_count"], [],
            ["type", "name", "to_node"], [], []⟩).summary.confidence
      ∧ (assembleResult 1048576
          ⟨["type", "name", "id", "self_size", "edge_count"], [],
            ["type", "name", "to_node"], [], []⟩
          ⟨["type", "name", "id", "self_size", "edge_count"], [],
            ["type", "name", "to_node"], [], []⟩).summary.confidence ≤ 1)
    ∧ ((assembleResult 1048576
          ⟨["type", "name", "id", "self_size", "edge_count"], [],
            ["type", "name", "to_node"], [], []⟩
          ⟨["type", "name", "id", "self_size", "edge_count"], [],
            ["type", "name", "to_node"], [], []⟩).summary.suspiciousGrowth = false →
        (assembleResult 1048576
          ⟨["type", "name", "id", "self_size", "edge_count"], [],
            ["type", "name", "to_node"], [], []⟩
          ⟨["type", "name", "id", "self_size", "edge_count"], [],
            ["type", "name", "to_node"], [], []⟩).summary.confidence = 0) :=
  c7_confidence_in_unit_interval 1048576
    (some ⟨some ["type", "name", "id", "self_size", "edge_count"], some [],
      some ["type", "name", "to_node"], some [], some []⟩)
    (some ⟨some ["type", "name", "id", "self_size", "edge_count"], some [],
      some ["type", "name", "to_node"], some [], some []⟩)
    (assembleResult 1048576
      ⟨["type", "name", "id", "self_size", "edge_count"], [],
        ["type", "name", "to_node"], [], []⟩
      ⟨["type", "name", "id", "self_size", "edge_count"], [],
        ["type", "name", "to_node"], [], []⟩)
    rfl

/-- C9: for every parsed snapshot, the sum over all TypeAggregate rows of
retained-size equals the sum of the self-size field over all nodes of that
snapshot. -/
theorem c9_aggregate_preserves_total_self_size (s : ParsedSnapshot) :
    sumRetained (aggregateSnapshot s) = sumSelfSizes (snapshotNodes s) := by
  unfold aggregateSnapshot aggregateRecords
  rw [sumRetained_foldl_bump]
  simp [sumRetained]

end ZupeeMemwatch
